import Mathlib

/-!
# Subtitle repositioning frontend: a shallow embedding

This file embeds the two React `App` components found in
`src/subtitle_frontend/src/App.js`.  The first component (namespace `V1`)
previews the video with an overlay of the cues returned by
`POST /reposition/subtitles` and offers a download through
`POST /reposition/subtitles/download`; the second component (namespace
`V2`) submits the files to `POST /reposition` with an abort signal and a
timer-driven simulated progress bar.

React `setX` state updates are modelled as explicit record updates.  A
user action together with the response it awaits is modelled as a `run`
function from the component state and the response to a `RunResult`: the
final state, the list of HTTP requests issued, and the traces of the
values passed to `setStatus` and `setProgress`, in program order.
JavaScript numbers are modelled as rationals (`ℚ`) or integers (`ℤ`).
-/

/-- A file selected in a file input: its name and an opaque byte content. -/
structure File where
  name : String
  content : List Nat
deriving DecidableEq, Repr

/-- A subtitle cue as delivered in the backend's JSON `cues` array:
`{start, end, text, position}`.  The position hint is `none` when the
field is absent from the JSON object. -/
structure Cue where
  start : ℚ
  «end» : ℚ
  text : String
  position : Option String
deriving DecidableEq, Repr

/-- HTTP methods a `fetch` call could use. -/
inductive Method
  | GET
  | POST
  | PUT
  | DELETE
deriving DecidableEq, Repr

/-- Body encoding of a request; a `FormData` body is sent as
`multipart/form-data`. -/
inductive BodyEncoding
  | multipartFormData
  | jsonBody
  | urlEncoded
deriving DecidableEq, Repr

/-- One value appended to a `FormData` body: a file or a string. -/
inductive FormValue
  | fileVal (f : File)
  | strVal (s : String)
deriving DecidableEq, Repr

/-- One `formData.append(name, value)` entry. -/
structure FormEntry where
  name : String
  value : FormValue
deriving DecidableEq, Repr

/-- An HTTP request as issued by `fetch`: the URL is `base ++ path`, and
`signal` records whether an `AbortController` signal was attached. -/
structure Request where
  method : Method
  base : String
  path : String
  encoding : BodyEncoding
  body : List FormEntry
  signal : Bool
deriving DecidableEq, Repr

/-- The observable part of a `fetch` response: `ok`, the numeric status,
the body as text, and — for the JSON endpoint — the parsed `cues` field
(`some cs` when the parsed body is an object whose `cues` member is an
array, `none` otherwise). -/
structure Response where
  ok : Bool
  statusCode : Nat
  bodyText : String
  cuesData : Option (List Cue)
deriving DecidableEq, Repr

/-- Result of running one user action to completion: the final component
state, the requests issued, and the successive values the handler passed
to `setStatus` and `setProgress`, in program order. -/
structure RunResult (σ : Type) where
  final : σ
  requests : List Request
  statusTrace : List String
  progressTrace : List ℤ
deriving DecidableEq, Repr

/-- JavaScript truncation toward zero of a rational number; used to model
the `%` remainder operator on numbers. -/
def jsTrunc (q : ℚ) : ℤ := if 0 ≤ q then ⌊q⌋ else -⌊-q⌋

/-- JavaScript remainder `x % y` (the sign follows the dividend). -/
def jsMod (x y : ℚ) : ℚ := x - y * (jsTrunc (x / y) : ℚ)

/-- JavaScript `Math.round` (half rounds toward positive infinity). -/
def jsRound (q : ℚ) : ℤ := ⌊q + 1 / 2⌋

/-- JavaScript `String.prototype.toLowerCase`, modelled characterwise (the
file names in play are ASCII). -/
def jsToLowerCase (s : String) : String := String.mk (s.toList.map Char.toLower)

/-- JavaScript `String.prototype.endsWith` with a string argument. -/
def jsEndsWith (s pat : String) : Bool := pat.toList.isSuffixOf s.toList

namespace V1

/-- The local helper `two` of `formatTime`:
`(n) => n.toString().padStart(2, '0')`. -/
def two (n : ℤ) : String :=
  String.mk (List.replicate (2 - (toString n).length) '0') ++ toString n

/-- The local helper `three` of `formatTime`:
`(n) => n.toString().padStart(3, '0')`. -/
def three (n : ℤ) : String :=
  String.mk (List.replicate (3 - (toString n).length) '0') ++ toString n

/-- The helper `formatTime(s)`: seconds to an SRT-like `HH:MM:SS,mmm`
label.  Here `s % 1` is the JavaScript remainder and `Math.floor` is
`⌊·⌋`; `total % 60` is integer-valued, so its decimal rendering is taken
through `jsTrunc`. -/
def formatTime (s : ℚ) : String :=
  let ms : ℤ := ⌊jsMod s 1 * 1000⌋
  let total : ℤ := ⌊s⌋
  let h : ℤ := ⌊(total : ℚ) / 3600⌋
  let m : ℤ := ⌊jsMod (total : ℚ) 3600 / 60⌋
  let sec : ℤ := jsTrunc (jsMod (total : ℚ) 60)
  two h ++ ":" ++ two m ++ ":" ++ two sec ++ "," ++ three ms

/-- The memo `activeCues`: the cues whose interval contains the current
playback time, `cues.filter(c => currentTime >= c.start && currentTime <= c.end)`,
with an empty result when no cue list is loaded. -/
def activeCues (cues : List Cue) (currentTime : ℚ) : List Cue :=
  if cues.isEmpty then []
  else cues.filter fun c => decide (currentTime ≥ c.start) && decide (currentTime ≤ c.«end»)

/-- The inline style object built by `overlayPositionStyle`: the constant
`base` fields plus exactly one of `top` / `bottom`. -/
structure OverlayStyle where
  position : String
  left : String
  transform : String
  maxWidth : String
  color : String
  background : String
  padding : String
  borderRadius : ℕ
  fontSize : ℕ
  lineHeight : ℚ
  textAlign : String
  boxShadow : String
  border : String
  top : Option String
  bottom : Option String
deriving DecidableEq, Repr

/-- The function `overlayPositionStyle(position)`: the absolute-centered
base style with `top: '6%'` when the cue's position hint is exactly the
string `'top'`, and the default `bottom: '6%'` otherwise. -/
def overlayPositionStyle (position : Option String) : OverlayStyle :=
  let base : OverlayStyle :=
    { position := "absolute", left := "50%", transform := "translateX(-50%)"
      maxWidth := "80%", color := "#fff", background := "rgba(0,0,0,0.55)"
      padding := "6px 10px", borderRadius := 6, fontSize := 16, lineHeight := 1.35
      textAlign := "center", boxShadow := "0 2px 8px rgba(0,0,0,0.25)"
      border := "1px solid rgba(255,255,255,0.25)", top := none, bottom := none }
  if position = some "top" then { base with top := some "6%" }
  else { base with bottom := some "6%" }

/-- What the overlay renders for one active cue: the cue text, the
time-and-position label, and the positioning style. -/
structure RenderedCue where
  text : String
  label : String
  style : OverlayStyle
deriving DecidableEq, Repr

/-- One overlay entry for a cue: the text child, the label
`formatTime(cue.start)` ` → ` `formatTime(cue.end)` ` • ` `cue.position`
(a missing position renders as nothing in JSX), and the style from
`overlayPositionStyle(cue.position)`. -/
def renderCue (cue : Cue) : RenderedCue :=
  { text := cue.text
    label := formatTime cue.start ++ " → " ++ formatTime cue.«end» ++ " • " ++ cue.position.getD ""
    style := overlayPositionStyle cue.position }

/-- The overlay children: `activeCues.map(...)`. -/
def overlays (cues : List Cue) (currentTime : ℚ) : List RenderedCue :=
  (activeCues cues currentTime).map renderCue

/-- The `useState` cell values of the first `App` component (DOM refs and
the object URL of the video preview are not modelled). -/
structure AppState where
  videoFile : Option File
  subtitleFile : Option File
  status : String
  progress : ℤ
  error : String
  cues : List Cue
  isProcessing : Bool
  includePositionHint : Bool
  backendBaseUrl : String
  currentTime : ℚ
deriving DecidableEq, Repr

/-- The handler `validateInputs()`: sets an error naming the missing file
and returns `false`, or clears the error and returns `true`. -/
def validateInputs (st : AppState) : AppState × Bool :=
  match st.videoFile with
  | none => ({ st with error := "Please select a video file." }, false)
  | some _ =>
    match st.subtitleFile with
    | none => ({ st with error := "Please select a subtitle file (SRT)." }, false)
    | some _ => ({ st with error := "" }, true)

/-- The handler `resetState()`. -/
def resetState (st : AppState) : AppState :=
  { st with cues := [], status := "Idle", progress := 0, error := "" }

/-- The handler `callRepositionAPI()` run to completion against a
response `resp`; the `validateInputs` checks are inlined, in source
order, to keep the file bindings.  On an `ok` response whose body parses
to a `cues` array, `setCues(data.cues)` stores that array verbatim. -/
def callRepositionAPI_run (st : AppState) (resp : Response) : RunResult AppState :=
  match st.videoFile, st.subtitleFile with
  | none, _ => ⟨{ st with error := "Please select a video file." }, [], [], []⟩
  | some _, none => ⟨{ st with error := "Please select a subtitle file (SRT)." }, [], [], []⟩
  | some v, some s =>
    let st1 := { st with error := "" }
    if st1.backendBaseUrl = "" then
      ⟨{ st1 with error := "Backend URL is not configured." }, [], [], []⟩
    else
      let st2 := { st1 with isProcessing := true, status := "Uploading...", progress := 10 }
      let req : Request :=
        { method := .POST, base := st2.backendBaseUrl, path := "/reposition/subtitles"
          encoding := .multipartFormData
          body := [⟨"video", .fileVal v⟩, ⟨"subtitles_file", .fileVal s⟩]
          signal := false }
      let st3 := { st2 with status := "Processing...", progress := 50 }
      if resp.ok then
        match resp.cuesData with
        | some cs =>
          ⟨{ st3 with cues := cs, status := "Done", progress := 100, isProcessing := false },
            [req], ["Uploading...", "Processing...", "Done"], [10, 50, 100]⟩
        | none =>
          ⟨{ st3 with
              error := "Unexpected response format from backend."
              status := "Error"
              isProcessing := false },
            [req], ["Uploading...", "Processing...", "Error"], [10, 50]⟩
      else
        ⟨{ st3 with
            error := "Backend error (" ++ toString resp.statusCode ++ "): " ++ resp.bodyText
            status := "Error"
            isProcessing := false },
          [req], ["Uploading...", "Processing...", "Error"], [10, 50]⟩

/-- The handler `downloadRepositionedSRT()` run against a response; the
DOM anchor click that saves the returned blob is not modelled. -/
def downloadRepositionedSRT_run (st : AppState) (resp : Response) : RunResult AppState :=
  match st.videoFile, st.subtitleFile with
  | none, _ => ⟨{ st with error := "Please select a video file." }, [], [], []⟩
  | some _, none => ⟨{ st with error := "Please select a subtitle file (SRT)." }, [], [], []⟩
  | some v, some s =>
    let st1 := { st with error := "" }
    if st1.backendBaseUrl = "" then
      ⟨{ st1 with error := "Backend URL is not configured." }, [], [], []⟩
    else
      let st2 := { st1 with isProcessing := true, status := "Requesting download...", progress := 30 }
      let req : Request :=
        { method := .POST, base := st2.backendBaseUrl, path := "/reposition/subtitles/download"
          encoding := .multipartFormData
          body := [⟨"video", .fileVal v⟩, ⟨"subtitles_file", .fileVal s⟩,
            ⟨"include_position_hint", .strVal (if st2.includePositionHint then "true" else "false")⟩]
          signal := false }
      if resp.ok then
        ⟨{ st2 with status := "Downloaded", progress := 100, isProcessing := false },
          [req], ["Requesting download...", "Downloaded"], [30, 100]⟩
      else
        ⟨{ st2 with
            error := "Backend error (" ++ toString resp.statusCode ++ "): " ++ resp.bodyText
            status := "Error"
            isProcessing := false },
          [req], ["Requesting download...", "Error"], [30]⟩

end V1

namespace V2

/-- The constant `SUPPORTED_SUB_EXTENSIONS`. -/
def SUPPORTED_SUB_EXTENSIONS : List String := [".srt", ".ass", ".ssa", ".vtt"]

/-- The regex `replace(/\/+$/, '')` applied to the configured URL. -/
def stripTrailingSlashes (s : String) : String :=
  String.mk ((s.toList.reverse.dropWhile fun c => c = '/').reverse)

/-- The helper `getBackendUrl()`: the `REACT_APP_BACKEND_URL` environment
value without trailing slashes when provided, the default backend
container URL otherwise. -/
def getBackendUrl (envUrl : Option String) : String :=
  match envUrl with
  | some u => stripTrailingSlashes u
  | none => "http://subtitle_backend:3001"

/-- The suffix of a character list starting at the last `'.'`, when one
occurs: this models `name.lastIndexOf('.')` followed by
`name.substring(dot)`. -/
def extSuffix : List Char → Option (List Char)
  | [] => none
  | c :: rest =>
    match extSuffix rest with
    | some e => some e
    | none => if c = '.' then some (c :: rest) else none

/-- Replace the first occurrence of `pat` (JavaScript
`String.prototype.replace` with a string pattern replaces only the first
occurrence, and an absent pattern leaves the string unchanged). -/
def replaceFirstAux (pat repl : List Char) : List Char → List Char
  | [] => []
  | c :: rest =>
    if pat.isPrefixOf (c :: rest) then repl ++ (c :: rest).drop pat.length
    else c :: replaceFirstAux pat repl rest

/-- String form of `replaceFirstAux`. -/
def replaceFirst (s pat repl : String) : String :=
  String.mk (replaceFirstAux pat.toList repl.toList s.toList)

/-- The helper `inferResultFilename()`: keeps the subtype of the original
subtitle file name, defaulting to `.srt`. -/
def inferResultFilename (subtitleFile : Option File) : String :=
  match subtitleFile with
  | none => "repositioned_subtitles.srt"
  | some f =>
    let ext :=
      match extSuffix f.name.toList with
      | some e => String.mk e
      | none => ".srt"
    replaceFirst f.name ext (".repositioned" ++ ext)

/-- The `useState` cell values of the second `App` component; the object
URL held in `downloadUrl` is opaque, so it is modelled as `Option Unit`.
The `abortControllerRef` is represented by the `signal` flag on the
request it guards. -/
structure State where
  videoFile : Option File
  subtitleFile : Option File
  status : String
  message : String
  progress : ℤ
  downloadUrl : Option Unit
  resultFilename : String
deriving DecidableEq, Repr

/-- The initial state of the second `App` component:
`useState('idle')`, empty message, zero progress, no files, no result. -/
def initialState : State :=
  { videoFile := none
    subtitleFile := none
    status := "idle"
    message := ""
    progress := 0
    downloadUrl := none
    resultFilename := "repositioned_subtitles.srt" }

/-- The handler `validateInputs()` of the second component: presence
checks for both files and the subtitle extension check, each setting the
error status and a message. -/
def validateInputs (st : State) : State × Bool :=
  match st.videoFile with
  | none => ({ st with status := "error", message := "Please select a video file." }, false)
  | some _ =>
    match st.subtitleFile with
    | none =>
      ({ st with
          status := "error"
          message := "Please select a subtitle file (" ++
            String.intercalate ", " SUPPORTED_SUB_EXTENSIONS ++ ")." }, false)
    | some sub =>
      if SUPPORTED_SUB_EXTENSIONS.any (fun ext => jsEndsWith (jsToLowerCase sub.name) ext) then (st, true)
      else
        ({ st with
            status := "error"
            message := "Unsupported subtitle format. Supported: " ++
              String.intercalate ", " SUPPORTED_SUB_EXTENSIONS ++ "." }, false)

/-- The helper `simulateProgress(from, to, durationMs)` applied to the
progress value `p0` current when it starts: first
`setProgress(prev => Math.max(prev, from))`, then fifteen interval ticks
each advancing `current` by `(to - from) / steps` and setting
`min(max(p, Math.round(current)), to)`.  The returned pair is the list of
successive progress values and the final one; `durationMs` only spaces
the ticks in time, which the model does not measure. -/
def simulateProgress (lo hi : ℤ) (durationMs : ℚ) (p0 : ℤ) : List ℤ × ℤ :=
  let start := max p0 lo
  let steps : ℕ := 15
  let increment : ℚ := ((hi : ℚ) - (lo : ℚ)) / steps
  let tick : (List ℤ × ℚ × ℤ) → ℕ → (List ℤ × ℚ × ℤ) := fun acc _ =>
    let current := acc.2.1 + increment
    let p := min (max acc.2.2 (jsRound current)) hi
    (acc.1 ++ [p], current, p)
  let r := (List.range steps).foldl tick ([], (lo : ℚ), start)
  (start :: r.1, r.2.2)

/-- How the awaited `fetch` of `handleSubmit` settles: a server response,
an `AbortError` raised because `cancelUpload()` fired the abort signal,
or any other rejection (network failure) with its error message. -/
inductive FetchOutcome
  | fromServer (resp : Response)
  | aborted
  | networkFailure (msg : String)
deriving DecidableEq, Repr

/-- The handler `handleSubmit(e)` run to completion against the given
fetch outcome; the `validateInputs` checks are inlined, in source order,
to keep the file bindings.  `envUrl` is the `REACT_APP_BACKEND_URL`
environment value seen by `getBackendUrl`. -/
def handleSubmit_run (envUrl : Option String) (st : State) (outcome : FetchOutcome) :
    RunResult State :=
  let st0 := { st with
    downloadUrl := none
    resultFilename := "repositioned_subtitles.srt"
    progress := 0 }
  match st0.videoFile, st0.subtitleFile with
  | none, _ =>
    ⟨{ st0 with status := "error", message := "Please select a video file." }, [], ["error"], [0]⟩
  | some _, none =>
    ⟨{ st0 with
        status := "error"
        message := "Please select a subtitle file (" ++
          String.intercalate ", " SUPPORTED_SUB_EXTENSIONS ++ ")." },
      [], ["error"], [0]⟩
  | some v, some s =>
    if SUPPORTED_SUB_EXTENSIONS.any (fun ext => jsEndsWith (jsToLowerCase s.name) ext) then
      let st1 := { st0 with status := "validating", message := "Validating files..." }
      let st2 := { st1 with resultFilename := inferResultFilename (some s) }
      let st3 := { st2 with status := "uploading", message := "Uploading files to backend..." }
      let sim1 := simulateProgress 10 60 800 st3.progress
      let req : Request :=
        { method := .POST, base := getBackendUrl envUrl, path := "/reposition"
          encoding := .multipartFormData
          body := [⟨"video", .fileVal v⟩, ⟨"subtitle", .fileVal s⟩]
          signal := true }
      match outcome with
      | .fromServer resp =>
        if resp.ok then
          let st4 := { st3 with
            progress := sim1.2
            status := "processing"
            message := "Processing on server..." }
          let sim2 := simulateProgress 60 90 600 sim1.2
          let sim3 := simulateProgress 90 100 200 sim2.2
          let st5 := { st4 with
            downloadUrl := some ()
            status := "success"
            message := "Success! Your repositioned subtitle file is ready."
            progress := 100 }
          ⟨st5, [req], ["validating", "uploading", "processing", "success"],
            [0] ++ sim1.1 ++ sim2.1 ++ sim3.1 ++ [100]⟩
        else
          let emsg :=
            if resp.bodyText = "" then "Request failed with status " ++ toString resp.statusCode
            else resp.bodyText
          ⟨{ st3 with status := "error", message := emsg, progress := 0 }, [req],
            ["validating", "uploading", "error"], [0] ++ sim1.1 ++ [0]⟩
      | .aborted =>
        ⟨{ st3 with status := "error", message := "Upload canceled.", progress := 0 }, [req],
          ["validating", "uploading", "error"], [0] ++ sim1.1 ++ [0]⟩
      | .networkFailure msg =>
        let emsg := if msg = "" then "Something went wrong while contacting the backend." else msg
        ⟨{ st3 with status := "error", message := emsg, progress := 0 }, [req],
          ["validating", "uploading", "error"], [0] ++ sim1.1 ++ [0]⟩
    else
      ⟨{ st0 with
          status := "error"
          message := "Unsupported subtitle format. Supported: " ++
            String.intercalate ", " SUPPORTED_SUB_EXTENSIONS ++ "." },
        [], ["error"], [0]⟩

end V2

/-! ## Concrete fixtures used by witnesses and counterexamples -/

/-- A concrete video file. -/
def sampleVideo : File := ⟨"clip.mp4", [0, 1, 2]⟩

/-- A second, different video file. -/
def sampleVideo2 : File := ⟨"big_clip.mp4", [9, 9, 9, 9, 9]⟩

/-- A concrete subtitle file with a supported extension. -/
def sampleSrt : File := ⟨"movie.srt", [10, 20, 30]⟩

/-- A second, different subtitle file. -/
def sampleSrt2 : File := ⟨"other.srt", [7]⟩

/-- A concrete cue positioned at the top. -/
def sampleCue : Cue := { start := 1, «end» := 2, text := "Hello", position := some "top" }

/-- A concrete cue list. -/
def sampleCues : List Cue :=
  [sampleCue, { start := 5/2, «end» := 7/2, text := "world", position := none }]

/-- A successful JSON response carrying a `cues` array. -/
def okCuesResponse (cs : List Cue) : Response :=
  { ok := true, statusCode := 200, bodyText := "", cuesData := some cs }

/-- A failed response with a body. -/
def errorResponse : Response :=
  { ok := false, statusCode := 500, bodyText := "boom", cuesData := none }

/-- A first-component state with both files selected and a backend URL. -/
def V1.readyState : V1.AppState :=
  { videoFile := some sampleVideo
    subtitleFile := some sampleSrt
    status := "Idle"
    progress := 0
    error := ""
    cues := []
    isProcessing := false
    includePositionHint := true
    backendBaseUrl := "http://localhost:3001"
    currentTime := 0 }

/-- A second-component state with both files selected. -/
def V2.readyState : V2.State :=
  { V2.initialState with videoFile := some sampleVideo, subtitleFile := some sampleSrt }

/-- Another second-component state, with different files. -/
def V2.readyState2 : V2.State :=
  { V2.initialState with videoFile := some sampleVideo2, subtitleFile := some sampleSrt2 }


/-! ## Derived definitions used by the claims about status and progress -/

/-- The canonical progress sequence of an issued submission: a function
of the fetch outcome alone (the simulated segments always start from the
`setProgress(0)` value). -/
def V2.submitProgressTrace (o : V2.FetchOutcome) : List ℤ :=
  match o with
  | .fromServer resp =>
    if resp.ok then
      [0] ++ (V2.simulateProgress 10 60 800 0).1
          ++ (V2.simulateProgress 60 90 600 (V2.simulateProgress 10 60 800 0).2).1
          ++ (V2.simulateProgress 90 100 200
                (V2.simulateProgress 60 90 600 (V2.simulateProgress 10 60 800 0).2).2).1
          ++ [100]
    else [0] ++ (V2.simulateProgress 10 60 800 0).1 ++ [0]
  | _ => [0] ++ (V2.simulateProgress 10 60 800 0).1 ++ [0]

/-- The canonical progress sequence of an issued reposition call. -/
def V1.callProgressTrace (resp : Response) : List ℤ :=
  if resp.ok then
    (match resp.cuesData with
      | some _ => ([10, 50, 100] : List ℤ)
      | none => [10, 50])
  else [10, 50]

/-- The canonical progress sequence of an issued download call. -/
def V1.downloadProgressTrace (resp : Response) : List ℤ :=
  if resp.ok then ([30, 100] : List ℤ) else [30]

/-- The status values attained by the preview component: the initial
`useState('Idle')`, the reset button, and the two actions. -/
def V1.attainedStatus (x : String) : Prop :=
  x = "Idle" ∨ (∃ st : V1.AppState, x = (V1.resetState st).status) ∨
    (∃ st resp, x ∈ (V1.callRepositionAPI_run st resp).statusTrace) ∨
    (∃ st resp, x ∈ (V1.downloadRepositionedSRT_run st resp).statusTrace)

/-- The status values attained by the submit component: the initial
`useState('idle')` and `handleSubmit`. -/
def V2.attainedStatus (x : String) : Prop :=
  x = V2.initialState.status ∨
    ∃ envUrl st o, x ∈ (V2.handleSubmit_run envUrl st o).statusTrace

/-- A status value the program's UI label can show. -/
def programStatus (x : String) : Prop := V1.attainedStatus x ∨ V2.attainedStatus x

/-- The claim as stated: the status value ranges over exactly `n`
distinct states across every operation the program performs. -/
def statusLabelHasExactly (n : ℕ) : Prop :=
  ∃ S : Finset String, S.card = n ∧ ∀ x, programStatus x ↔ x ∈ S

/-- The seven status strings the preview component can show. -/
def V1.statusValues : List String :=
  ["Idle", "Uploading...", "Processing...", "Done", "Error",
    "Requesting download...", "Downloaded"]

/-- The six status strings the submit component can show. -/
def V2.statusValues : List String :=
  ["idle", "validating", "uploading", "processing", "success", "error"]

/-! ## C8: the active-cue filter -/

/-- The `isEmpty` early return of `activeCues` coincides with the filter. -/
theorem activeCues_eq_filter (cues : List Cue) (t : ℚ) :
    V1.activeCues cues t =
      cues.filter fun c => decide (t ≥ c.start) && decide (t ≤ c.«end») := by
  cases cues <;> simp [V1.activeCues]

/-- C8: for every cue list and playback time `t`, the overlay holds
exactly the cues whose interval contains `t` with inclusive boundaries
(`start <= t` and `t <= end`), in backend order (a sublist of the cue
list); a cue with `start = end` is active exactly at that instant, and a
cue with `start > end` is never active. -/
theorem activeCues_exactly_contained (cues : List Cue) (t : ℚ) (c : Cue) :
    ((V1.activeCues cues t).count c =
        if c.start ≤ t ∧ t ≤ c.«end» then cues.count c else 0) ∧
      (V1.activeCues cues t).Sublist cues ∧
      (c ∈ V1.activeCues cues t ↔ c ∈ cues ∧ c.start ≤ t ∧ t ≤ c.«end») ∧
      (c.start = c.«end» → (c ∈ V1.activeCues cues t ↔ c ∈ cues ∧ t = c.start)) ∧
      (c.«end» < c.start → c ∉ V1.activeCues cues t) := by
  have hfil := activeCues_eq_filter cues t
  have hmem : c ∈ V1.activeCues cues t ↔ c ∈ cues ∧ c.start ≤ t ∧ t ≤ c.«end» := by
    rw [hfil, List.mem_filter]
    simp [ge_iff_le]
  refine ⟨?_, ?_, hmem, ?_, ?_⟩
  · rw [hfil]
    by_cases hp : c.start ≤ t ∧ t ≤ c.«end»
    · rw [if_pos hp]
      exact List.count_filter (by simp [ge_iff_le, hp.1, hp.2])
    · rw [if_neg hp, List.count_eq_zero]
      intro hmem'
      rcases List.mem_filter.mp hmem' with ⟨-, hpc⟩
      simp [ge_iff_le] at hpc
      exact hp hpc
  · rw [hfil]; exact List.filter_sublist _
  · intro he
    rw [hmem]
    constructor
    · rintro ⟨hc, h1, h2⟩
      exact ⟨hc, le_antisymm (he ▸ h2) h1⟩
    · rintro ⟨hc, rfl⟩
      exact ⟨hc, le_refl _, le_of_eq he⟩
  · intro hlt hmem'
    rcases hmem.mp hmem' with ⟨-, h1, h2⟩
    exact absurd (h1.trans h2) (not_le.mpr hlt)

/-! ## C9: overlay placement -/

/-- C9: a cue's overlay is placed at the top (`top: '6%'`, no `bottom`)
exactly when the cue's position field is the string `'top'`; every other
hint — `'bottom'`, an unrecognised string, or a missing field — yields
the default bottom placement (`bottom: '6%'`, no `top`), so rendering is
total in the position hint. -/
theorem overlay_top_iff_position_top (position : Option String) :
    ((V1.overlayPositionStyle position).top = some "6%" ∧
        (V1.overlayPositionStyle position).bottom = none ↔ position = some "top") ∧
      (position ≠ some "top" →
        (V1.overlayPositionStyle position).bottom = some "6%" ∧
          (V1.overlayPositionStyle position).top = none) := by
  unfold V1.overlayPositionStyle
  by_cases h : position = some "top" <;> simp [h]

/-! ## C10: the time label format -/

/-- Truncation agrees with the floor on non-negative rationals. -/
theorem jsTrunc_of_nonneg {q : ℚ} (h : 0 ≤ q) : jsTrunc q = ⌊q⌋ := by
  simp [jsTrunc, h]

/-- The remainder `s % 1` of a non-negative number is its fractional part. -/
theorem jsMod_one {s : ℚ} (h0 : 0 ≤ s) : jsMod s 1 = s - ⌊s⌋ := by
  unfold jsMod
  rw [div_one, jsTrunc_of_nonneg h0, one_mul]

/-- The JavaScript remainder of a non-negative integer by a positive
natural literal is the euclidean remainder. -/
theorem jsMod_intCast (a : ℤ) (n : ℕ) (ha : 0 ≤ a) (hn : 0 < n) :
    jsMod (a : ℚ) (n : ℚ) = ((a % (n : ℤ) : ℤ) : ℚ) := by
  unfold jsMod
  have hdiv : (0 : ℚ) ≤ (a : ℚ) / (n : ℚ) := by positivity
  rw [jsTrunc_of_nonneg hdiv, Rat.floor_intCast_div_natCast, Int.emod_def]
  push_cast
  ring

/-- Flooring after integer division by a natural literal can be done on
the floor of the dividend. -/
theorem floor_floor_div_natCast (s : ℚ) (n : ℕ) (hn : 0 < n) :
    ⌊(⌊s⌋ : ℚ) / (n : ℚ)⌋ = ⌊s / (n : ℚ)⌋ := by
  have hc : (0 : ℚ) < (n : ℚ) := by exact_mod_cast hn
  apply le_antisymm
  · exact Int.floor_le_floor ((div_le_div_right hc).mpr (Int.floor_le s))
  · rw [Int.le_floor, le_div_iff₀ hc]
    have h2 : (⌊s / (n : ℚ)⌋ : ℚ) * (n : ℚ) ≤ s := by
      rw [← le_div_iff₀ hc]
      exact Int.floor_le _
    have h3 : (⌊s / (n : ℚ)⌋ * (n : ℤ) : ℤ) ≤ ⌊s⌋ := by
      rw [Int.le_floor]
      push_cast
      exact h2
    calc ((⌊s / (n : ℚ)⌋ : ℚ) * (n : ℚ)) = ((⌊s / (n : ℚ)⌋ * (n : ℤ) : ℤ) : ℚ) := by
          push_cast; ring
      _ ≤ (⌊s⌋ : ℚ) := by exact_mod_cast h3

/-- Decimal length bound for the rendering of a non-negative integer. -/
theorem toString_int_length_le (n : ℤ) (e : ℕ) (he : 0 < e) (h0 : 0 ≤ n)
    (hlt : n < 10 ^ e) : (toString n).length ≤ e := by
  lift n to ℕ using h0 with k
  have hk : toString (k : ℤ) = Nat.repr k := rfl
  rw [hk]
  exact Nat.repr_length k e he (by exact_mod_cast hlt)

/-- A value between 0 and 99 padded by `two` has exactly two characters. -/
theorem two_length {n : ℤ} (h0 : 0 ≤ n) (h : n < 100) : (V1.two n).length = 2 := by
  have hlen : (toString n).length ≤ 2 :=
    toString_int_length_le n 2 (by norm_num) h0 (by norm_num at h ⊢; exact h)
  simp only [V1.two, String.length_append]
  rw [show (String.mk (List.replicate (2 - (toString n).length) '0')).length
      = (List.replicate (2 - (toString n).length) '0').length from rfl, List.length_replicate]
  omega

/-- A value between 0 and 999 padded by `three` has exactly three
characters. -/
theorem three_length {n : ℤ} (h0 : 0 ≤ n) (h : n < 1000) : (V1.three n).length = 3 := by
  have hlen : (toString n).length ≤ 3 :=
    toString_int_length_le n 3 (by norm_num) h0 (by norm_num at h ⊢; exact h)
  simp only [V1.three, String.length_append]
  rw [show (String.mk (List.replicate (3 - (toString n).length) '0')).length
      = (List.replicate (3 - (toString n).length) '0').length from rfl, List.length_replicate]
  omega

/-- C10: for every non-negative number of seconds `s`, `formatTime s` is
the `HH:MM:SS,mmm` string whose hours are `⌊s / 3600⌋`, whose minutes and
seconds lie between 0 and 59, whose milliseconds are the floor of the
fractional part times 1000 (between 0 and 999), with every component
zero-padded to its field width (two characters for minutes and seconds,
three for milliseconds). -/
theorem formatTime_shape (s : ℚ) (h0 : 0 ≤ s) :
    ∃ m sec : ℤ,
      0 ≤ m ∧ m ≤ 59 ∧ 0 ≤ sec ∧ sec ≤ 59 ∧
      0 ≤ ⌊(s - ⌊s⌋) * 1000⌋ ∧ ⌊(s - ⌊s⌋) * 1000⌋ ≤ 999 ∧ 0 ≤ ⌊s / 3600⌋ ∧
      V1.formatTime s =
        V1.two ⌊s / 3600⌋ ++ ":" ++ V1.two m ++ ":" ++ V1.two sec ++ "," ++
          V1.three ⌊(s - ⌊s⌋) * 1000⌋ ∧
      (V1.two m).length = 2 ∧ (V1.two sec).length = 2 ∧
      (V1.three ⌊(s - ⌊s⌋) * 1000⌋).length = 3 := by
  have htot0 : (0 : ℤ) ≤ ⌊s⌋ := Int.floor_nonneg.mpr h0
  have h3600 : ((3600 : ℚ)) = ((3600 : ℕ) : ℚ) := by norm_num
  have h60 : ((60 : ℚ)) = ((60 : ℕ) : ℚ) := by norm_num
  have hfrac0 : (0 : ℚ) ≤ s - ⌊s⌋ := by
    have := Int.floor_le s
    linarith
  have hfrac1 : s - ⌊s⌋ < 1 := by
    have := Int.lt_floor_add_one s
    linarith
  have hms0 : (0 : ℤ) ≤ ⌊(s - ⌊s⌋) * 1000⌋ := Int.floor_nonneg.mpr (by positivity)
  have hms1 : ⌊(s - ⌊s⌋) * 1000⌋ ≤ 999 := by
    have hlt : (s - ⌊s⌋) * 1000 < 1000 := by nlinarith
    have := Int.floor_lt.mpr (show (s - ⌊s⌋) * 1000 < ((1000 : ℤ) : ℚ) by push_cast; exact hlt)
    omega
  have hh0 : (0 : ℤ) ≤ ⌊s / 3600⌋ := Int.floor_nonneg.mpr (by positivity)
  refine ⟨⌊s⌋ % 3600 / 60, ⌊s⌋ % 60, by omega, by omega, by omega, by omega,
    hms0, hms1, hh0, ?_, two_length (by omega) (by omega), two_length (by omega) (by omega),
    three_length hms0 (by omega)⟩
  simp only [V1.formatTime]
  have e1 : jsMod s 1 = s - ⌊s⌋ := jsMod_one h0
  have e2 : ⌊((⌊s⌋ : ℤ) : ℚ) / 3600⌋ = ⌊s / 3600⌋ := by
    rw [h3600]
    exact floor_floor_div_natCast s 3600 (by norm_num)
  have e3 : jsMod ((⌊s⌋ : ℤ) : ℚ) 3600 = ((⌊s⌋ % 3600 : ℤ) : ℚ) := by
    rw [h3600]
    exact jsMod_intCast ⌊s⌋ 3600 htot0 (by norm_num)
  have e4 : ⌊((⌊s⌋ % 3600 : ℤ) : ℚ) / 60⌋ = ⌊s⌋ % 3600 / 60 := by
    rw [h60]
    exact Rat.floor_intCast_div_natCast (⌊s⌋ % 3600) 60
  have e5 : jsMod ((⌊s⌋ : ℤ) : ℚ) 60 = ((⌊s⌋ % 60 : ℤ) : ℚ) := by
    rw [h60]
    exact jsMod_intCast ⌊s⌋ 60 htot0 (by norm_num)
  have e6 : jsTrunc ((⌊s⌋ % 60 : ℤ) : ℚ) = ⌊s⌋ % 60 := by
    rw [jsTrunc_of_nonneg (by exact_mod_cast Int.emod_nonneg ⌊s⌋ (by norm_num))]
    exact Int.floor_intCast _
  rw [e1, e2, e3, e4, e5, e6]

/-! ## C1: cues stored and rendered verbatim -/

/-- C1: when the reposition call succeeds and the JSON response carries a
`cues` array, the component stores the received cue records verbatim —
the stored list is the received list, no field altered, added, dropped or
reordered — and during playback the overlay renders each active cue with
exactly the received field values (text, start, end, position). -/
theorem cues_stored_and_rendered_verbatim (st : V1.AppState) (resp : Response)
    (cs : List Cue) (hok : resp.ok = true) (hcs : resp.cuesData = some cs)
    (hreq : (V1.callRepositionAPI_run st resp).requests ≠ []) :
    (V1.callRepositionAPI_run st resp).final.cues = cs ∧
      (∀ t, V1.overlays (V1.callRepositionAPI_run st resp).final.cues t =
        (V1.activeCues cs t).map V1.renderCue) ∧
      (∀ c : Cue, V1.renderCue c =
        { text := c.text
          label := V1.formatTime c.start ++ " → " ++ V1.formatTime c.«end» ++ " • " ++
            c.position.getD ""
          style := V1.overlayPositionStyle c.position }) := by
  obtain ⟨vf, sf, status, progress, err, cues, ip, iph, burl, ct⟩ := st
  cases vf with
  | none => simp [V1.callRepositionAPI_run] at hreq
  | some v =>
    cases sf with
    | none => simp [V1.callRepositionAPI_run] at hreq
    | some s =>
      by_cases hb : burl = ""
      · simp [V1.callRepositionAPI_run, hb] at hreq
      · have hc : (V1.callRepositionAPI_run
            ⟨some v, some s, status, progress, err, cues, ip, iph, burl, ct⟩ resp).final.cues
            = cs := by
          simp [V1.callRepositionAPI_run, hb, hok, hcs]
        exact ⟨hc, fun t => by rw [hc]; rfl, fun c => rfl⟩

set_option maxRecDepth 100000 in
/-- Witness for C1 at a ready state and a successful response carrying
two concrete cues. -/
theorem cues_stored_and_rendered_verbatim_witness :
    (V1.callRepositionAPI_run V1.readyState (okCuesResponse sampleCues)).final.cues
        = sampleCues ∧
      (∀ t, V1.overlays
          (V1.callRepositionAPI_run V1.readyState (okCuesResponse sampleCues)).final.cues t =
        (V1.activeCues sampleCues t).map V1.renderCue) ∧
      (∀ c : Cue, V1.renderCue c =
        { text := c.text
          label := V1.formatTime c.start ++ " → " ++ V1.formatTime c.«end» ++ " • " ++
            c.position.getD ""
          style := V1.overlayPositionStyle c.position }) :=
  cues_stored_and_rendered_verbatim V1.readyState (okCuesResponse sampleCues) sampleCues
    rfl rfl (by decide)

/-! ## Request characterizations shared by several claims -/

/-- Either `callRepositionAPI` issues nothing, or both files were
selected and it issues exactly its one `POST /reposition/subtitles`
form-data request without an abort signal. -/
theorem call_requests_characterization (st : V1.AppState) (resp : Response) :
    (V1.callRepositionAPI_run st resp).requests = [] ∨
      ∃ v s, st.videoFile = some v ∧ st.subtitleFile = some s ∧
        (V1.callRepositionAPI_run st resp).requests =
          [⟨.POST, st.backendBaseUrl, "/reposition/subtitles", .multipartFormData,
            [⟨"video", .fileVal v⟩, ⟨"subtitles_file", .fileVal s⟩], false⟩] := by
  obtain ⟨vf, sf, status, progress, err, cues, ip, iph, burl, ct⟩ := st
  obtain ⟨ok, sc, bt, cd⟩ := resp
  cases vf with
  | none => left; simp [V1.callRepositionAPI_run]
  | some v =>
    cases sf with
    | none => left; simp [V1.callRepositionAPI_run]
    | some s =>
      by_cases hb : burl = ""
      · left; simp [V1.callRepositionAPI_run, hb]
      · right
        refine ⟨v, s, rfl, rfl, ?_⟩
        cases ok with
        | false => simp [V1.callRepositionAPI_run, hb]
        | true =>
          cases cd with
          | none => simp [V1.callRepositionAPI_run, hb]
          | some cs => simp [V1.callRepositionAPI_run, hb]

/-- Either `downloadRepositionedSRT` issues nothing, or both files were
selected and it issues exactly its one `POST
/reposition/subtitles/download` form-data request without an abort
signal. -/
theorem download_requests_characterization (st : V1.AppState) (resp : Response) :
    (V1.downloadRepositionedSRT_run st resp).requests = [] ∨
      ∃ v s, st.videoFile = some v ∧ st.subtitleFile = some s ∧
        (V1.downloadRepositionedSRT_run st resp).requests =
          [⟨.POST, st.backendBaseUrl, "/reposition/subtitles/download", .multipartFormData,
            [⟨"video", .fileVal v⟩, ⟨"subtitles_file", .fileVal s⟩,
              ⟨"include_position_hint",
                .strVal (if st.includePositionHint then "true" else "false")⟩], false⟩] := by
  obtain ⟨vf, sf, status, progress, err, cues, ip, iph, burl, ct⟩ := st
  obtain ⟨ok, sc, bt, cd⟩ := resp
  cases vf with
  | none => left; simp [V1.downloadRepositionedSRT_run]
  | some v =>
    cases sf with
    | none => left; simp [V1.downloadRepositionedSRT_run]
    | some s =>
      by_cases hb : burl = ""
      · left; simp [V1.downloadRepositionedSRT_run, hb]
      · right
        refine ⟨v, s, rfl, rfl, ?_⟩
        cases ok with
        | false => simp [V1.downloadRepositionedSRT_run, hb]
        | true => simp [V1.downloadRepositionedSRT_run, hb]

/-- Either `handleSubmit` issues nothing, or both files were selected and
it issues exactly its one `POST /reposition` form-data request carrying
the abort signal. -/
theorem submit_requests_characterization (envUrl : Option String) (st : V2.State)
    (o : V2.FetchOutcome) :
    (V2.handleSubmit_run envUrl st o).requests = [] ∨
      ∃ v s, st.videoFile = some v ∧ st.subtitleFile = some s ∧
        (V2.handleSubmit_run envUrl st o).requests =
          [⟨.POST, V2.getBackendUrl envUrl, "/reposition", .multipartFormData,
            [⟨"video", .fileVal v⟩, ⟨"subtitle", .fileVal s⟩], true⟩] := by
  obtain ⟨vf, sf, status, message, progress, durl, rfn⟩ := st
  cases vf with
  | none => left; simp [V2.handleSubmit_run]
  | some v =>
    cases sf with
    | none => left; simp [V2.handleSubmit_run]
    | some s =>
      by_cases hx : (V2.SUPPORTED_SUB_EXTENSIONS.any
          fun ext => jsEndsWith (jsToLowerCase s.name) ext) = true
      · right
        refine ⟨v, s, rfl, rfl, ?_⟩
        cases o with
        | fromServer resp =>
          obtain ⟨ok, sc, bt, cd⟩ := resp
          cases ok with
          | false => simp [V2.handleSubmit_run, hx]
          | true => simp [V2.handleSubmit_run, hx]
        | aborted => simp [V2.handleSubmit_run, hx]
        | networkFailure msg => simp [V2.handleSubmit_run, hx]
      · left; simp [V2.handleSubmit_run, hx]

/-! ## C2: every request is a POST of multipart form data to a reposition endpoint -/

/-- C2: every network request any of the three actions issues is an HTTP
POST carrying multipart form data that includes the selected video and
subtitle files, and its target is one of `/reposition`,
`/reposition/subtitles`, or `/reposition/subtitles/download`; no other
method, endpoint, or body encoding occurs. -/
theorem requests_post_multipart_known_endpoints :
    (∀ (st : V1.AppState) (resp : Response) (r : Request),
        r ∈ (V1.callRepositionAPI_run st resp).requests →
          r.method = .POST ∧ r.encoding = .multipartFormData ∧
          r.path ∈ (["/reposition", "/reposition/subtitles",
            "/reposition/subtitles/download"] : List String) ∧
          ∃ v s, st.videoFile = some v ∧ st.subtitleFile = some s ∧
            (⟨"video", .fileVal v⟩ : FormEntry) ∈ r.body ∧
            (⟨"subtitles_file", .fileVal s⟩ : FormEntry) ∈ r.body) ∧
    (∀ (st : V1.AppState) (resp : Response) (r : Request),
        r ∈ (V1.downloadRepositionedSRT_run st resp).requests →
          r.method = .POST ∧ r.encoding = .multipartFormData ∧
          r.path ∈ (["/reposition", "/reposition/subtitles",
            "/reposition/subtitles/download"] : List String) ∧
          ∃ v s, st.videoFile = some v ∧ st.subtitleFile = some s ∧
            (⟨"video", .fileVal v⟩ : FormEntry) ∈ r.body ∧
            (⟨"subtitles_file", .fileVal s⟩ : FormEntry) ∈ r.body) ∧
    (∀ (envUrl : Option String) (st : V2.State) (o : V2.FetchOutcome) (r : Request),
        r ∈ (V2.handleSubmit_run envUrl st o).requests →
          r.method = .POST ∧ r.encoding = .multipartFormData ∧
          r.path ∈ (["/reposition", "/reposition/subtitles",
            "/reposition/subtitles/download"] : List String) ∧
          ∃ v s, st.videoFile = some v ∧ st.subtitleFile = some s ∧
            (⟨"video", .fileVal v⟩ : FormEntry) ∈ r.body ∧
            (⟨"subtitle", .fileVal s⟩ : FormEntry) ∈ r.body) := by
  refine ⟨?_, ?_, ?_⟩
  · intro st resp r hr
    rcases call_requests_characterization st resp with hnone | ⟨v, s, hv, hs, he⟩
    · rw [hnone] at hr; simp at hr
    · rw [he] at hr
      rw [List.mem_singleton] at hr
      subst hr
      exact ⟨rfl, rfl, by simp, v, s, hv, hs, by simp, by simp⟩
  · intro st resp r hr
    rcases download_requests_characterization st resp with hnone | ⟨v, s, hv, hs, he⟩
    · rw [hnone] at hr; simp at hr
    · rw [he] at hr
      rw [List.mem_singleton] at hr
      subst hr
      exact ⟨rfl, rfl, by simp, v, s, hv, hs, by simp, by simp⟩
  · intro envUrl st o r hr
    rcases submit_requests_characterization envUrl st o with hnone | ⟨v, s, hv, hs, he⟩
    · rw [hnone] at hr; simp at hr
    · rw [he] at hr
      rw [List.mem_singleton] at hr
      subst hr
      exact ⟨rfl, rfl, by simp, v, s, hv, hs, by simp, by simp⟩

set_option maxRecDepth 100000 in
/-- Witness for C2: the concrete request issued by `callRepositionAPI`
from a ready state is the POST of multipart form data to
`/reposition/subtitles` carrying both selected files. -/
theorem requests_post_multipart_known_endpoints_witness :
    (⟨.POST, "http://localhost:3001", "/reposition/subtitles", .multipartFormData,
        [⟨"video", .fileVal sampleVideo⟩, ⟨"subtitles_file", .fileVal sampleSrt⟩],
        false⟩ : Request).method = .POST ∧
      (⟨.POST, "http://localhost:3001", "/reposition/subtitles", .multipartFormData,
        [⟨"video", .fileVal sampleVideo⟩, ⟨"subtitles_file", .fileVal sampleSrt⟩],
        false⟩ : Request).encoding = .multipartFormData ∧
      (⟨.POST, "http://localhost:3001", "/reposition/subtitles", .multipartFormData,
        [⟨"video", .fileVal sampleVideo⟩, ⟨"subtitles_file", .fileVal sampleSrt⟩],
        false⟩ : Request).path ∈ (["/reposition", "/reposition/subtitles",
          "/reposition/subtitles/download"] : List String) ∧
      ∃ v s, V1.readyState.videoFile = some v ∧ V1.readyState.subtitleFile = some s ∧
        (⟨"video", .fileVal v⟩ : FormEntry) ∈
          (⟨.POST, "http://localhost:3001", "/reposition/subtitles", .multipartFormData,
            [⟨"video", .fileVal sampleVideo⟩, ⟨"subtitles_file", .fileVal sampleSrt⟩],
            false⟩ : Request).body ∧
        (⟨"subtitles_file", .fileVal s⟩ : FormEntry) ∈
          (⟨.POST, "http://localhost:3001", "/reposition/subtitles", .multipartFormData,
            [⟨"video", .fileVal sampleVideo⟩, ⟨"subtitles_file", .fileVal sampleSrt⟩],
            false⟩ : Request).body :=
  requests_post_multipart_known_endpoints.1 V1.readyState (okCuesResponse sampleCues) _
    (by decide)

/-! ## C3: presence checks gate every request -/

/-- C3: for each of the three actions, a missing video file sets the
error message naming the video input and the action returns without
issuing any request; a missing subtitle file (with a video selected) sets
the error message naming the subtitle input and issues no request; and a
request is issued only when both presence checks pass. -/
theorem missing_file_blocks_request :
    (∀ (st : V1.AppState) (resp : Response), st.videoFile = none →
        (V1.callRepositionAPI_run st resp).final.error = "Please select a video file." ∧
        (V1.callRepositionAPI_run st resp).requests = []) ∧
    (∀ (st : V1.AppState) (resp : Response) (v : File),
        st.videoFile = some v → st.subtitleFile = none →
        (V1.callRepositionAPI_run st resp).final.error = "Please select a subtitle file (SRT)." ∧
        (V1.callRepositionAPI_run st resp).requests = []) ∧
    (∀ (st : V1.AppState) (resp : Response), st.videoFile = none →
        (V1.downloadRepositionedSRT_run st resp).final.error = "Please select a video file." ∧
        (V1.downloadRepositionedSRT_run st resp).requests = []) ∧
    (∀ (st : V1.AppState) (resp : Response) (v : File),
        st.videoFile = some v → st.subtitleFile = none →
        (V1.downloadRepositionedSRT_run st resp).final.error
            = "Please select a subtitle file (SRT)." ∧
        (V1.downloadRepositionedSRT_run st resp).requests = []) ∧
    (∀ (envUrl : Option String) (st : V2.State) (o : V2.FetchOutcome), st.videoFile = none →
        (V2.handleSubmit_run envUrl st o).final.status = "error" ∧
        (V2.handleSubmit_run envUrl st o).final.message = "Please select a video file." ∧
        (V2.handleSubmit_run envUrl st o).requests = []) ∧
    (∀ (envUrl : Option String) (st : V2.State) (o : V2.FetchOutcome) (v : File),
        st.videoFile = some v → st.subtitleFile = none →
        (V2.handleSubmit_run envUrl st o).final.status = "error" ∧
        (V2.handleSubmit_run envUrl st o).final.message
            = "Please select a subtitle file (.srt, .ass, .ssa, .vtt)." ∧
        (V2.handleSubmit_run envUrl st o).requests = []) ∧
    (∀ (st : V1.AppState) (resp : Response),
        (V1.callRepositionAPI_run st resp).requests ≠ [] →
        st.videoFile ≠ none ∧ st.subtitleFile ≠ none) ∧
    (∀ (st : V1.AppState) (resp : Response),
        (V1.downloadRepositionedSRT_run st resp).requests ≠ [] →
        st.videoFile ≠ none ∧ st.subtitleFile ≠ none) ∧
    (∀ (envUrl : Option String) (st : V2.State) (o : V2.FetchOutcome),
        (V2.handleSubmit_run envUrl st o).requests ≠ [] →
        st.videoFile ≠ none ∧ st.subtitleFile ≠ none) := by
  refine ⟨?_, ?_, ?_, ?_, ?_, ?_, ?_, ?_, ?_⟩
  · intro st resp hv
    obtain ⟨vf, sf, status, progress, err, cues, ip, iph, burl, ct⟩ := st
    cases hv
    exact ⟨by simp [V1.callRepositionAPI_run], by simp [V1.callRepositionAPI_run]⟩
  · intro st resp v hv hs
    obtain ⟨vf, sf, status, progress, err, cues, ip, iph, burl, ct⟩ := st
    cases hv; cases hs
    exact ⟨by simp [V1.callRepositionAPI_run], by simp [V1.callRepositionAPI_run]⟩
  · intro st resp hv
    obtain ⟨vf, sf, status, progress, err, cues, ip, iph, burl, ct⟩ := st
    cases hv
    exact ⟨by simp [V1.downloadRepositionedSRT_run], by simp [V1.downloadRepositionedSRT_run]⟩
  · intro st resp v hv hs
    obtain ⟨vf, sf, status, progress, err, cues, ip, iph, burl, ct⟩ := st
    cases hv; cases hs
    exact ⟨by simp [V1.downloadRepositionedSRT_run], by simp [V1.downloadRepositionedSRT_run]⟩
  · intro envUrl st o hv
    obtain ⟨vf, sf, status, message, progress, durl, rfn⟩ := st
    cases hv
    refine ⟨by simp [V2.handleSubmit_run], by simp [V2.handleSubmit_run],
      by simp [V2.handleSubmit_run]⟩
  · intro envUrl st o v hv hs
    obtain ⟨vf, sf, status, message, progress, durl, rfn⟩ := st
    cases hv; cases hs
    refine ⟨by simp [V2.handleSubmit_run], ?_, by simp [V2.handleSubmit_run]⟩
    simp only [V2.handleSubmit_run]
    decide
  · intro st resp hne
    rcases call_requests_characterization st resp with hnone | ⟨v, s, hv, hs, -⟩
    · exact absurd hnone hne
    · exact ⟨by simp [hv], by simp [hs]⟩
  · intro st resp hne
    rcases download_requests_characterization st resp with hnone | ⟨v, s, hv, hs, -⟩
    · exact absurd hnone hne
    · exact ⟨by simp [hv], by simp [hs]⟩
  · intro envUrl st o hne
    rcases submit_requests_characterization envUrl st o with hnone | ⟨v, s, hv, hs, -⟩
    · exact absurd hnone hne
    · exact ⟨by simp [hv], by simp [hs]⟩

set_option maxRecDepth 100000 in
/-- Witness for C3: submitting with no video selected sets the video
error message and issues no request. -/
theorem missing_file_blocks_request_witness :
    (V2.handleSubmit_run none V2.initialState .aborted).final.status = "error" ∧
      (V2.handleSubmit_run none V2.initialState .aborted).final.message
          = "Please select a video file." ∧
      (V2.handleSubmit_run none V2.initialState .aborted).requests = [] :=
  missing_file_blocks_request.2.2.2.2.1 none V2.initialState .aborted rfl

/-! ## C4: HTTP errors are surfaced; exactly one request per action -/

/-- C4: whenever a request was issued and the backend responded non-OK,
the response body text is surfaced as part of the error string shown to
the user, the UI enters its error state, and no retry happens — the
action issued exactly one request (and never more than one in any
case). -/
theorem http_error_surfaced_no_retry :
    (∀ (st : V1.AppState) (resp : Response), resp.ok = false →
        (V1.callRepositionAPI_run st resp).requests ≠ [] →
        (V1.callRepositionAPI_run st resp).final.status = "Error" ∧
        (V1.callRepositionAPI_run st resp).final.error =
          "Backend error (" ++ toString resp.statusCode ++ "): " ++ resp.bodyText ∧
        (∃ pre post, (V1.callRepositionAPI_run st resp).final.error
          = pre ++ resp.bodyText ++ post) ∧
        (V1.callRepositionAPI_run st resp).requests.length = 1) ∧
    (∀ (st : V1.AppState) (resp : Response), resp.ok = false →
        (V1.downloadRepositionedSRT_run st resp).requests ≠ [] →
        (V1.downloadRepositionedSRT_run st resp).final.status = "Error" ∧
        (V1.downloadRepositionedSRT_run st resp).final.error =
          "Backend error (" ++ toString resp.statusCode ++ "): " ++ resp.bodyText ∧
        (∃ pre post, (V1.downloadRepositionedSRT_run st resp).final.error
          = pre ++ resp.bodyText ++ post) ∧
        (V1.downloadRepositionedSRT_run st resp).requests.length = 1) ∧
    (∀ (envUrl : Option String) (st : V2.State) (resp : Response), resp.ok = false →
        (V2.handleSubmit_run envUrl st (.fromServer resp)).requests ≠ [] →
        (V2.handleSubmit_run envUrl st (.fromServer resp)).final.status = "error" ∧
        (∃ pre post, (V2.handleSubmit_run envUrl st (.fromServer resp)).final.message
          = pre ++ resp.bodyText ++ post) ∧
        (V2.handleSubmit_run envUrl st (.fromServer resp)).requests.length = 1) ∧
    (∀ (st : V1.AppState) (resp : Response),
        (V1.callRepositionAPI_run st resp).requests.length ≤ 1) ∧
    (∀ (st : V1.AppState) (resp : Response),
        (V1.downloadRepositionedSRT_run st resp).requests.length ≤ 1) ∧
    (∀ (envUrl : Option String) (st : V2.State) (o : V2.FetchOutcome),
        (V2.handleSubmit_run envUrl st o).requests.length ≤ 1) := by
  refine ⟨?_, ?_, ?_, ?_, ?_, ?_⟩
  · intro st resp hok hne
    obtain ⟨vf, sf, status, progress, err, cues, ip, iph, burl, ct⟩ := st
    obtain ⟨ok, sc, bt, cd⟩ := resp
    cases hok
    cases vf with
    | none => simp [V1.callRepositionAPI_run] at hne
    | some v =>
      cases sf with
      | none => simp [V1.callRepositionAPI_run] at hne
      | some s =>
        by_cases hb : burl = ""
        · simp [V1.callRepositionAPI_run, hb] at hne
        · refine ⟨by simp [V1.callRepositionAPI_run, hb], by simp [V1.callRepositionAPI_run, hb],
            ⟨"Backend error (" ++ toString sc ++ "): ", "", ?_⟩,
            by simp [V1.callRepositionAPI_run, hb]⟩
          simp [V1.callRepositionAPI_run, hb]
  · intro st resp hok hne
    obtain ⟨vf, sf, status, progress, err, cues, ip, iph, burl, ct⟩ := st
    obtain ⟨ok, sc, bt, cd⟩ := resp
    cases hok
    cases vf with
    | none => simp [V1.downloadRepositionedSRT_run] at hne
    | some v =>
      cases sf with
      | none => simp [V1.downloadRepositionedSRT_run] at hne
      | some s =>
        by_cases hb : burl = ""
        · simp [V1.downloadRepositionedSRT_run, hb] at hne
        · refine ⟨by simp [V1.downloadRepositionedSRT_run, hb],
            by simp [V1.downloadRepositionedSRT_run, hb],
            ⟨"Backend error (" ++ toString sc ++ "): ", "", ?_⟩,
            by simp [V1.downloadRepositionedSRT_run, hb]⟩
          simp [V1.downloadRepositionedSRT_run, hb]
  · intro envUrl st resp hok hne
    obtain ⟨vf, sf, status, message, progress, durl, rfn⟩ := st
    obtain ⟨ok, sc, bt, cd⟩ := resp
    cases hok
    cases vf with
    | none => simp [V2.handleSubmit_run] at hne
    | some v =>
      cases sf with
      | none => simp [V2.handleSubmit_run] at hne
      | some s =>
        by_cases hx : (V2.SUPPORTED_SUB_EXTENSIONS.any
            fun ext => jsEndsWith (jsToLowerCase s.name) ext) = true
        · refine ⟨by simp [V2.handleSubmit_run, hx], ?_, by simp [V2.handleSubmit_run, hx]⟩
          by_cases hbt : bt = ""
          · refine ⟨"Request failed with status " ++ toString sc, "", ?_⟩
            simp [V2.handleSubmit_run, hx, hbt]
          · refine ⟨"", "", ?_⟩
            simp [V2.handleSubmit_run, hx, hbt]
        · simp [V2.handleSubmit_run, hx] at hne
  · intro st resp
    rcases call_requests_characterization st resp with hnone | ⟨v, s, hv, hs, he⟩
    · simp [hnone]
    · simp [he]
  · intro st resp
    rcases download_requests_characterization st resp with hnone | ⟨v, s, hv, hs, he⟩
    · simp [hnone]
    · simp [he]
  · intro envUrl st o
    rcases submit_requests_characterization envUrl st o with hnone | ⟨v, s, hv, hs, he⟩
    · simp [hnone]
    · simp [he]

set_option maxRecDepth 100000 in
/-- Witness for C4: a failed download response surfaces the body text in
the error string, enters the error state, and one request was issued. -/
theorem http_error_surfaced_no_retry_witness :
    (V1.downloadRepositionedSRT_run V1.readyState errorResponse).final.status = "Error" ∧
      (V1.downloadRepositionedSRT_run V1.readyState errorResponse).final.error =
        "Backend error (" ++ toString errorResponse.statusCode ++ "): "
          ++ errorResponse.bodyText ∧
      (∃ pre post, (V1.downloadRepositionedSRT_run V1.readyState errorResponse).final.error
        = pre ++ errorResponse.bodyText ++ post) ∧
      (V1.downloadRepositionedSRT_run V1.readyState errorResponse).requests.length = 1 :=
  http_error_surfaced_no_retry.2.1 V1.readyState errorResponse rfl (by decide)

/-! ## C6: abort signals -/

set_option maxRecDepth 100000 in
/-- C6 counterexample: the request issued by the preview component's
`callRepositionAPI` from a ready state carries no abort signal, so it is
not the case that every in-flight request is cancellable via an abort
signal. -/
theorem uncancellable_request_exists :
    ¬ (∀ r ∈ (V1.callRepositionAPI_run V1.readyState (okCuesResponse sampleCues)).requests,
        r.signal = true) := by decide

/-- C6 (amended): at most one request is in flight per user action; the
submit component's `/reposition` request carries the abort signal, and
cancelling it makes the UI report `Upload canceled.` in the error state
with progress reset; the preview component's two requests carry no abort
signal and so are not cancellable. -/
theorem abort_signal_only_in_submit :
    (∀ (envUrl : Option String) (st : V2.State) (o : V2.FetchOutcome),
        (V2.handleSubmit_run envUrl st o).requests.length ≤ 1 ∧
        ∀ r ∈ (V2.handleSubmit_run envUrl st o).requests, r.signal = true) ∧
    (∀ (envUrl : Option String) (st : V2.State),
        (V2.handleSubmit_run envUrl st .aborted).requests ≠ [] →
        (V2.handleSubmit_run envUrl st .aborted).final.status = "error" ∧
        (V2.handleSubmit_run envUrl st .aborted).final.message = "Upload canceled." ∧
        (V2.handleSubmit_run envUrl st .aborted).final.progress = 0) ∧
    (∀ (st : V1.AppState) (resp : Response),
        (V1.callRepositionAPI_run st resp).requests.length ≤ 1 ∧
        (V1.downloadRepositionedSRT_run st resp).requests.length ≤ 1 ∧
        (∀ r ∈ (V1.callRepositionAPI_run st resp).requests, r.signal = false) ∧
        (∀ r ∈ (V1.downloadRepositionedSRT_run st resp).requests, r.signal = false)) := by
  refine ⟨?_, ?_, ?_⟩
  · intro envUrl st o
    rcases submit_requests_characterization envUrl st o with hnone | ⟨v, s, hv, hs, he⟩
    · rw [hnone]; exact ⟨by simp, by simp⟩
    · rw [he]
      refine ⟨by simp, ?_⟩
      intro r hr
      rw [List.mem_singleton] at hr
      subst hr
      rfl
  · intro envUrl st hne
    obtain ⟨vf, sf, status, message, progress, durl, rfn⟩ := st
    cases vf with
    | none => simp [V2.handleSubmit_run] at hne
    | some v =>
      cases sf with
      | none => simp [V2.handleSubmit_run] at hne
      | some s =>
        by_cases hx : (V2.SUPPORTED_SUB_EXTENSIONS.any
            fun ext => jsEndsWith (jsToLowerCase s.name) ext) = true
        · exact ⟨by simp [V2.handleSubmit_run, hx], by simp [V2.handleSubmit_run, hx],
            by simp [V2.handleSubmit_run, hx]⟩
        · simp [V2.handleSubmit_run, hx] at hne
  · intro st resp
    refine ⟨?_, ?_, ?_, ?_⟩
    · rcases call_requests_characterization st resp with hnone | ⟨v, s, hv, hs, he⟩
      · simp [hnone]
      · simp [he]
    · rcases download_requests_characterization st resp with hnone | ⟨v, s, hv, hs, he⟩
      · simp [hnone]
      · simp [he]
    · rcases call_requests_characterization st resp with hnone | ⟨v, s, hv, hs, he⟩
      · rw [hnone]; simp
      · rw [he]
        intro r hr
        rw [List.mem_singleton] at hr
        subst hr
        rfl
    · rcases download_requests_characterization st resp with hnone | ⟨v, s, hv, hs, he⟩
      · rw [hnone]; simp
      · rw [he]
        intro r hr
        rw [List.mem_singleton] at hr
        subst hr
        rfl

set_option maxRecDepth 1000000 in
unseal Rat.ofScientific Rat.mul Rat.inv Rat.add Rat.sub in
/-- Witness for C6 (amended): cancelling a concrete in-flight submission
yields the canceled message in the error state. -/
theorem abort_signal_only_in_submit_witness :
    (V2.handleSubmit_run none V2.readyState .aborted).final.status = "error" ∧
      (V2.handleSubmit_run none V2.readyState .aborted).final.message = "Upload canceled." ∧
      (V2.handleSubmit_run none V2.readyState .aborted).final.progress = 0 :=
  abort_signal_only_in_submit.2.1 none V2.readyState (by decide)

/-! ## C7: the progress indicator is outcome-determined, not file-determined -/

/-- Issued submissions have the canonical, file-independent progress
trace selected by the fetch outcome alone. -/
theorem submit_progressTrace_of_issued (envUrl : Option String) (st : V2.State)
    (o : V2.FetchOutcome) (hne : (V2.handleSubmit_run envUrl st o).requests ≠ []) :
    (V2.handleSubmit_run envUrl st o).progressTrace = V2.submitProgressTrace o := by
  obtain ⟨vf, sf, status, message, progress, durl, rfn⟩ := st
  cases vf with
  | none => simp [V2.handleSubmit_run] at hne
  | some v =>
    cases sf with
    | none => simp [V2.handleSubmit_run] at hne
    | some s =>
      by_cases hx : (V2.SUPPORTED_SUB_EXTENSIONS.any
          fun ext => jsEndsWith (jsToLowerCase s.name) ext) = true
      · cases o with
        | fromServer resp =>
          obtain ⟨ok, sc, bt, cd⟩ := resp
          cases ok with
          | false => simp [V2.handleSubmit_run, V2.submitProgressTrace, hx]
          | true => simp [V2.handleSubmit_run, V2.submitProgressTrace, hx]
        | aborted => simp [V2.handleSubmit_run, V2.submitProgressTrace, hx]
        | networkFailure msg => simp [V2.handleSubmit_run, V2.submitProgressTrace, hx]
      · simp [V2.handleSubmit_run, hx] at hne

/-- Issued reposition calls have the fixed progress trace selected by the
response alone. -/
theorem call_progressTrace_of_issued (st : V1.AppState) (resp : Response)
    (hne : (V1.callRepositionAPI_run st resp).requests ≠ []) :
    (V1.callRepositionAPI_run st resp).progressTrace = V1.callProgressTrace resp := by
  obtain ⟨vf, sf, status, progress, err, cues, ip, iph, burl, ct⟩ := st
  obtain ⟨ok, sc, bt, cd⟩ := resp
  cases vf with
  | none => simp [V1.callRepositionAPI_run] at hne
  | some v =>
    cases sf with
    | none => simp [V1.callRepositionAPI_run] at hne
    | some s =>
      by_cases hb : burl = ""
      · simp [V1.callRepositionAPI_run, hb] at hne
      · cases ok with
        | false => simp [V1.callRepositionAPI_run, V1.callProgressTrace, hb]
        | true =>
          cases cd with
          | none => simp [V1.callRepositionAPI_run, V1.callProgressTrace, hb]
          | some cs => simp [V1.callRepositionAPI_run, V1.callProgressTrace, hb]

/-- Issued download calls have the fixed progress trace selected by the
response alone. -/
theorem download_progressTrace_of_issued (st : V1.AppState) (resp : Response)
    (hne : (V1.downloadRepositionedSRT_run st resp).requests ≠ []) :
    (V1.downloadRepositionedSRT_run st resp).progressTrace
      = V1.downloadProgressTrace resp := by
  obtain ⟨vf, sf, status, progress, err, cues, ip, iph, burl, ct⟩ := st
  obtain ⟨ok, sc, bt, cd⟩ := resp
  cases vf with
  | none => simp [V1.downloadRepositionedSRT_run] at hne
  | some v =>
    cases sf with
    | none => simp [V1.downloadRepositionedSRT_run] at hne
    | some s =>
      by_cases hb : burl = ""
      · simp [V1.downloadRepositionedSRT_run, hb] at hne
      · cases ok with
        | false => simp [V1.downloadRepositionedSRT_run, V1.downloadProgressTrace, hb]
        | true => simp [V1.downloadRepositionedSRT_run, V1.downloadProgressTrace, hb]

/-- C7: the progress indicator is a simulation driven by fixed timers and
set points: whenever two submissions both issue their request and their
requests resolve with the same outcome, the sequence of progress values
is identical, regardless of the sizes or contents of the selected video
and subtitle files — no byte-level transfer progress is measured. -/
theorem progress_trace_file_independent :
    (∀ (envUrl : Option String) (st1 st2 : V2.State) (o : V2.FetchOutcome),
        (V2.handleSubmit_run envUrl st1 o).requests ≠ [] →
        (V2.handleSubmit_run envUrl st2 o).requests ≠ [] →
        (V2.handleSubmit_run envUrl st1 o).progressTrace
          = (V2.handleSubmit_run envUrl st2 o).progressTrace) ∧
    (∀ (st1 st2 : V1.AppState) (resp : Response),
        (V1.callRepositionAPI_run st1 resp).requests ≠ [] →
        (V1.callRepositionAPI_run st2 resp).requests ≠ [] →
        (V1.callRepositionAPI_run st1 resp).progressTrace
          = (V1.callRepositionAPI_run st2 resp).progressTrace) ∧
    (∀ (st1 st2 : V1.AppState) (resp : Response),
        (V1.downloadRepositionedSRT_run st1 resp).requests ≠ [] →
        (V1.downloadRepositionedSRT_run st2 resp).requests ≠ [] →
        (V1.downloadRepositionedSRT_run st1 resp).progressTrace
          = (V1.downloadRepositionedSRT_run st2 resp).progressTrace) := by
  refine ⟨?_, ?_, ?_⟩
  · intro envUrl st1 st2 o h1 h2
    rw [submit_progressTrace_of_issued envUrl st1 o h1,
      submit_progressTrace_of_issued envUrl st2 o h2]
  · intro st1 st2 resp h1 h2
    rw [call_progressTrace_of_issued st1 resp h1, call_progressTrace_of_issued st2 resp h2]
  · intro st1 st2 resp h1 h2
    rw [download_progressTrace_of_issued st1 resp h1,
      download_progressTrace_of_issued st2 resp h2]

set_option maxRecDepth 1000000 in
unseal Rat.ofScientific Rat.mul Rat.inv Rat.add Rat.sub in
/-- Witness for C7: two submissions with different video and subtitle
files and the same outcome show the same progress sequence. -/
theorem progress_trace_file_independent_witness :
    (V2.handleSubmit_run none V2.readyState .aborted).progressTrace
      = (V2.handleSubmit_run none V2.readyState2 .aborted).progressTrace :=
  progress_trace_file_independent.1 none V2.readyState V2.readyState2 .aborted
    (by decide) (by decide)

/-! ## C5: the status label -/

/-- The status trace of a reposition call is one of three literal lists. -/
theorem call_statusTrace_cases (st : V1.AppState) (resp : Response) :
    (V1.callRepositionAPI_run st resp).statusTrace = [] ∨
    (V1.callRepositionAPI_run st resp).statusTrace
      = ["Uploading...", "Processing...", "Done"] ∨
    (V1.callRepositionAPI_run st resp).statusTrace
      = ["Uploading...", "Processing...", "Error"] := by
  obtain ⟨vf, sf, status, progress, err, cues, ip, iph, burl, ct⟩ := st
  obtain ⟨ok, sc, bt, cd⟩ := resp
  cases vf with
  | none => left; simp [V1.callRepositionAPI_run]
  | some v =>
    cases sf with
    | none => left; simp [V1.callRepositionAPI_run]
    | some s =>
      by_cases hb : burl = ""
      · left; simp [V1.callRepositionAPI_run, hb]
      · cases ok with
        | false => right; right; simp [V1.callRepositionAPI_run, hb]
        | true =>
          cases cd with
          | none => right; right; simp [V1.callRepositionAPI_run, hb]
          | some cs => right; left; simp [V1.callRepositionAPI_run, hb]

/-- The status trace of a download call is one of three literal lists. -/
theorem download_statusTrace_cases (st : V1.AppState) (resp : Response) :
    (V1.downloadRepositionedSRT_run st resp).statusTrace = [] ∨
    (V1.downloadRepositionedSRT_run st resp).statusTrace
      = ["Requesting download...", "Downloaded"] ∨
    (V1.downloadRepositionedSRT_run st resp).statusTrace
      = ["Requesting download...", "Error"] := by
  obtain ⟨vf, sf, status, progress, err, cues, ip, iph, burl, ct⟩ := st
  obtain ⟨ok, sc, bt, cd⟩ := resp
  cases vf with
  | none => left; simp [V1.downloadRepositionedSRT_run]
  | some v =>
    cases sf with
    | none => left; simp [V1.downloadRepositionedSRT_run]
    | some s =>
      by_cases hb : burl = ""
      · left; simp [V1.downloadRepositionedSRT_run, hb]
      · cases ok with
        | false => right; right; simp [V1.downloadRepositionedSRT_run, hb]
        | true => right; left; simp [V1.downloadRepositionedSRT_run, hb]

/-- The status trace of a submission is one of three literal lists. -/
theorem submit_statusTrace_cases (envUrl : Option String) (st : V2.State)
    (o : V2.FetchOutcome) :
    (V2.handleSubmit_run envUrl st o).statusTrace = ["error"] ∨
    (V2.handleSubmit_run envUrl st o).statusTrace
      = ["validating", "uploading", "processing", "success"] ∨
    (V2.handleSubmit_run envUrl st o).statusTrace
      = ["validating", "uploading", "error"] := by
  obtain ⟨vf, sf, status, message, progress, durl, rfn⟩ := st
  cases vf with
  | none => left; simp [V2.handleSubmit_run]
  | some v =>
    cases sf with
    | none => left; simp [V2.handleSubmit_run]
    | some s =>
      by_cases hx : (V2.SUPPORTED_SUB_EXTENSIONS.any
          fun ext => jsEndsWith (jsToLowerCase s.name) ext) = true
      · cases o with
        | fromServer resp =>
          obtain ⟨ok, sc, bt, cd⟩ := resp
          cases ok with
          | false => right; right; simp [V2.handleSubmit_run, hx]
          | true => right; left; simp [V2.handleSubmit_run, hx]
        | aborted => right; right; simp [V2.handleSubmit_run, hx]
        | networkFailure msg => right; right; simp [V2.handleSubmit_run, hx]
      · left; simp [V2.handleSubmit_run, hx]

set_option maxRecDepth 1000000 in
unseal Rat.ofScientific Rat.mul Rat.inv Rat.add Rat.sub in
/-- C5 counterexample: the UI status is not a five-state label — at least
six distinct status values are attained (six already by the submit
component alone), so no five-element set captures exactly the attainable
statuses. -/
theorem five_state_status_false : ¬ statusLabelHasExactly 5 := by
  rintro ⟨S, hcard, hiff⟩
  have h1 : ("idle" : String) ∈ S := (hiff _).mp (Or.inr (Or.inl rfl))
  have h2 : ("validating" : String) ∈ S := (hiff _).mp (Or.inr (Or.inr
    ⟨none, V2.readyState, .fromServer (okCuesResponse []), by decide⟩))
  have h3 : ("uploading" : String) ∈ S := (hiff _).mp (Or.inr (Or.inr
    ⟨none, V2.readyState, .fromServer (okCuesResponse []), by decide⟩))
  have h4 : ("processing" : String) ∈ S := (hiff _).mp (Or.inr (Or.inr
    ⟨none, V2.readyState, .fromServer (okCuesResponse []), by decide⟩))
  have h5 : ("success" : String) ∈ S := (hiff _).mp (Or.inr (Or.inr
    ⟨none, V2.readyState, .fromServer (okCuesResponse []), by decide⟩))
  have h6 : ("error" : String) ∈ S := (hiff _).mp (Or.inr (Or.inr
    ⟨none, V2.initialState, .aborted, by decide⟩))
  have hsub : ({"idle", "validating", "uploading", "processing", "success", "error"} :
      Finset String) ⊆ S := by
    intro x hx
    simp only [Finset.mem_insert, Finset.mem_singleton] at hx
    rcases hx with rfl | rfl | rfl | rfl | rfl | rfl
    exacts [h1, h2, h3, h4, h5, h6]
  have h6card : (6 : ℕ) ≤ S.card := by
    calc (6 : ℕ) = ({"idle", "validating", "uploading", "processing", "success", "error"} :
        Finset String).card := by decide
      _ ≤ S.card := Finset.card_le_card hsub
  omega

set_option maxRecDepth 1000000 in
unseal Rat.ofScientific Rat.mul Rat.inv Rat.add Rat.sub in
/-- C5 (amended): the UI status label ranges over exactly seven distinct
values in the preview component (`Idle`, `Uploading...`, `Processing...`,
`Done`, `Error`, `Requesting download...`, `Downloaded`) and exactly six
in the submit component (`idle`, `validating`, `uploading`, `processing`,
`success`, `error`): every status a modelled operation sets lies in the
respective list, every listed value is attained, and the lists repeat no
value. -/
theorem status_label_seven_and_six :
    (∀ x, V1.attainedStatus x → x ∈ V1.statusValues) ∧
    (∀ x ∈ V1.statusValues, V1.attainedStatus x) ∧
    (∀ x, V2.attainedStatus x → x ∈ V2.statusValues) ∧
    (∀ x ∈ V2.statusValues, V2.attainedStatus x) ∧
    V1.statusValues.Nodup ∧ V1.statusValues.length = 7 ∧
    V2.statusValues.Nodup ∧ V2.statusValues.length = 6 := by
  refine ⟨?_, ?_, ?_, ?_, by decide, by decide, by decide, by decide⟩
  · intro x hx
    rcases hx with rfl | ⟨st, rfl⟩ | ⟨st, resp, hmem⟩ | ⟨st, resp, hmem⟩
    · decide
    · have hr : (V1.resetState st).status = "Idle" := rfl
      rw [hr]; decide
    · rcases call_statusTrace_cases st resp with hc | hc | hc <;> rw [hc] at hmem
      · simp at hmem
      · simp at hmem
        rcases hmem with rfl | rfl | rfl <;> decide
      · simp at hmem
        rcases hmem with rfl | rfl | rfl <;> decide
    · rcases download_statusTrace_cases st resp with hc | hc | hc <;> rw [hc] at hmem
      · simp at hmem
      · simp at hmem
        rcases hmem with rfl | rfl <;> decide
      · simp at hmem
        rcases hmem with rfl | rfl <;> decide
  · intro x hx
    fin_cases hx
    · exact Or.inl rfl
    · exact Or.inr (Or.inr (Or.inl ⟨V1.readyState, okCuesResponse sampleCues, by decide⟩))
    · exact Or.inr (Or.inr (Or.inl ⟨V1.readyState, okCuesResponse sampleCues, by decide⟩))
    · exact Or.inr (Or.inr (Or.inl ⟨V1.readyState, okCuesResponse sampleCues, by decide⟩))
    · exact Or.inr (Or.inr (Or.inl ⟨V1.readyState, errorResponse, by decide⟩))
    · exact Or.inr (Or.inr (Or.inr ⟨V1.readyState, okCuesResponse [], by decide⟩))
    · exact Or.inr (Or.inr (Or.inr ⟨V1.readyState, okCuesResponse [], by decide⟩))
  · intro x hx
    rcases hx with rfl | ⟨envUrl, st, o, hmem⟩
    · decide
    · rcases submit_statusTrace_cases envUrl st o with hc | hc | hc <;> rw [hc] at hmem
      · simp at hmem
        subst hmem; decide
      · simp at hmem
        rcases hmem with rfl | rfl | rfl | rfl <;> decide
      · simp at hmem
        rcases hmem with rfl | rfl | rfl <;> decide
  · intro x hx
    fin_cases hx
    · exact Or.inl rfl
    · exact Or.inr ⟨none, V2.readyState, .fromServer (okCuesResponse []), by decide⟩
    · exact Or.inr ⟨none, V2.readyState, .fromServer (okCuesResponse []), by decide⟩
    · exact Or.inr ⟨none, V2.readyState, .fromServer (okCuesResponse []), by decide⟩
    · exact Or.inr ⟨none, V2.readyState, .fromServer (okCuesResponse []), by decide⟩
    · exact Or.inr ⟨none, V2.initialState, .aborted, by decide⟩

set_option maxRecDepth 1000000 in
unseal Rat.ofScientific Rat.mul Rat.inv Rat.add Rat.sub in
/-- Witness for C5 (amended): the submit component attains `success`. -/
theorem status_label_seven_and_six_witness : V2.attainedStatus "success" :=
  status_label_seven_and_six.2.2.2.1 "success" (by decide)

set_option maxRecDepth 1000000 in
unseal Rat.ofScientific Rat.mul Rat.inv Rat.add Rat.sub in
/-- Witness for C10 at `s = 3661.5` seconds, whose label is
`01:01:01,500`. -/
theorem formatTime_shape_witness :
    V1.formatTime (3661.5 : ℚ) = "01:01:01,500" ∧
      ∃ m sec : ℤ,
        0 ≤ m ∧ m ≤ 59 ∧ 0 ≤ sec ∧ sec ≤ 59 ∧
        0 ≤ ⌊((3661.5 : ℚ) - ⌊(3661.5 : ℚ)⌋) * 1000⌋ ∧
        ⌊((3661.5 : ℚ) - ⌊(3661.5 : ℚ)⌋) * 1000⌋ ≤ 999 ∧ 0 ≤ ⌊(3661.5 : ℚ) / 3600⌋ ∧
        V1.formatTime (3661.5 : ℚ) =
          V1.two ⌊(3661.5 : ℚ) / 3600⌋ ++ ":" ++ V1.two m ++ ":" ++ V1.two sec ++ "," ++
            V1.three ⌊((3661.5 : ℚ) - ⌊(3661.5 : ℚ)⌋) * 1000⌋ ∧
        (V1.two m).length = 2 ∧ (V1.two sec).length = 2 ∧
        (V1.three ⌊((3661.5 : ℚ) - ⌊(3661.5 : ℚ)⌋) * 1000⌋).length = 3 :=
  ⟨by decide, formatTime_shape (3661.5 : ℚ) (by norm_num)⟩
